import Mathlib

/-!
Formalisation of the geopolymer concrete mix-design engine
(`geopolymer_mix_design` in `src/app.py`): a pure calculation from design
parameters to material quantities for one cubic meter of concrete.

Numbers are modelled by `ℚ`; decimal literals of the source become the
exact rationals they denote.  Python's division agrees with `ℚ` division
whenever the denominator is nonzero; the inputs on which the source
reaches a division whose denominator is zero (and so raises
`ZeroDivisionError` instead of returning) are characterised separately by
`raises_div_by_zero`.  The source's `precursors` dict (unique names) is
modelled as a list of named entries, and the two possible activator dict
keys (`'Sodium Silicate'`, `'Sodium Hydroxide'`) as two `Option` fields.
-/

/-- One precursor material: an entry `name : {'percentage': _, 'sg': _}`
of the source's `precursors` dict. -/
structure Precursor where
  name : String
  percentage : ℚ
  sg : ℚ
deriving Repr, DecidableEq

/-- The `activators['Sodium Silicate']` entry: oxide/water composition
percentages and specific gravity. -/
structure SodiumSilicate where
  sio2 : ℚ
  na2o : ℚ
  h2o : ℚ
  sg : ℚ
deriving Repr, DecidableEq

/-- The `activators['Sodium Hydroxide']` entry: solution molarity. -/
structure SodiumHydroxide where
  molarity : ℚ
deriving Repr, DecidableEq

/-- The `activators` dict: each of the two recognised keys is present or
absent. -/
structure Activators where
  ss : Option SodiumSilicate
  sh : Option SodiumHydroxide
deriving Repr, DecidableEq

/-- The `fine_agg` dict: `{'sg', 'fm', 'moisture'}`. -/
structure FineAgg where
  sg : ℚ
  fm : ℚ
  moisture : ℚ
deriving Repr, DecidableEq

/-- The `coarse_agg` dict: `{'sg', 'size', 'moisture'}`. -/
structure CoarseAgg where
  sg : ℚ
  size : ℚ
  moisture : ℚ
deriving Repr, DecidableEq

/-- The full argument list of `geopolymer_mix_design`, with the source's
default values for the three optional parameters. -/
structure MixInput where
  target_strength : ℚ
  precursors : List Precursor
  activators : Activators
  fine_agg : FineAgg
  coarse_agg : CoarseAgg
  ss_sh_ratio : ℚ := 2.0
  act_binder_ratio : ℚ := 0.45
  extra_water : ℚ := 0
deriving Repr, DecidableEq

/-- The two validation failures (lines 100-108 of `src/app.py`), each
carrying the computed sum reported in the error message. -/
inductive MixError where
  | precursorSum (sum : ℚ)
  | silicateSum (sum : ℚ)
deriving Repr, DecidableEq

/-- The `"error"` string of the dict returned on validation failure.
The offending sum is rendered with `toString`, standing in for Python's
`str` of the number. -/
def MixError.message : MixError → String
  | .precursorSum s =>
      "Precursor percentages must sum to 100%, current sum is " ++ toString s ++ "%"
  | .silicateSum s =>
      "Sodium silicate composition must sum to 100%, current sum is " ++ toString s ++ "%"

/-- `sum(p['percentage'] for p in precursors.values())` (line 100). -/
def precursor_sum (ps : List Precursor) : ℚ :=
  (ps.map Precursor.percentage).sum

/-- The validation prefix of `geopolymer_mix_design` (lines 100-108):
the precursor-percentage check, then, if sodium silicate is used, the
composition check.  `some e` models the early `return {"error": ...}`. -/
def validate (inp : MixInput) : Option MixError :=
  if 0.1 < |precursor_sum inp.precursors - 100| then
    some (.precursorSum (precursor_sum inp.precursors))
  else
    match inp.activators.ss with
    | some ss =>
        if 0.1 < |ss.sio2 + ss.na2o + ss.h2o - 100| then
          some (.silicateSum (ss.sio2 + ss.na2o + ss.h2o))
        else
          none
    | none => none

/-- Renders a rational to two decimal places (rounding half up), modelling
the `:.2f` format used in the activator-modulus warning (line 113). -/
def fmt2 (q : ℚ) : String :=
  let n : ℤ := round (q * 100)
  let m := n.natAbs
  let frac := m % 100
  (if n < 0 then "-" else "") ++ toString (m / 100) ++ "." ++
    (if frac < 10 then "0" else "") ++ toString frac

/-- The warning of line 113. -/
def modulus_warning (m : ℚ) : String :=
  "Activator modulus (SiO₂/Na₂O = " ++ fmt2 m ++
    ") is outside the recommended range (0.6-2.0) as per IS 17452:2020"

/-- The warning of line 117. -/
def sio2_warning (v : ℚ) : String :=
  "SiO₂ content (" ++ toString v ++
    "%) is outside the recommended range (30-35%) as per IS 17452:2020"

/-- The warning of line 120. -/
def na2o_warning (v : ℚ) : String :=
  "Na₂O content (" ++ toString v ++
    "%) is outside the recommended range (12-18%) as per IS 17452:2020"

/-- The warning of line 123. -/
def h2o_warning (v : ℚ) : String :=
  "H₂O content (" ++ toString v ++
    "%) is outside the recommended range (40-50%) as per IS 17452:2020"

/-- The range checks of lines 110-123, run when sodium silicate is present
and its composition check passed: the accumulated warning strings, in
order of evaluation.  `activator_modulus = ss['sio2'] / ss['na2o']` is
computed unconditionally (line 111). -/
def silicate_warnings (ss : SodiumSilicate) : List String :=
  let activator_modulus := ss.sio2 / ss.na2o
  (if activator_modulus < 0.6 ∨ 2.0 < activator_modulus then
      [modulus_warning activator_modulus] else []) ++
  (if ss.sio2 < 30 ∨ 35 < ss.sio2 then [sio2_warning ss.sio2] else []) ++
  (if ss.na2o < 12 ∨ 18 < ss.na2o then [na2o_warning ss.na2o] else []) ++
  (if ss.h2o < 40 ∨ 50 < ss.h2o then [h2o_warning ss.h2o] else [])

/-- The warnings list of a successful run: empty unless sodium silicate is
among the activators (lines 97 and 104-123). -/
def mix_warnings (inp : MixInput) : List String :=
  match inp.activators.ss with
  | some ss => silicate_warnings ss
  | none => []

/-- The strength-banded binder content lookup (lines 126-133), kg/m³. -/
def total_binder_content (target_strength : ℚ) : ℚ :=
  if target_strength ≤ 30 then 350
  else if target_strength ≤ 40 then 400
  else if target_strength ≤ 50 then 450
  else 500

/-- `binder_quantities` (lines 136-139): the precursors with strictly
positive percentage, each paired with `total_binder_content * percentage
/ 100`.  The pair keeps the whole precursor so that the later dict lookup
`precursors[name]['sg']` (line 185) is the `sg` field of the pair. -/
def binder_quantities (tbc : ℚ) (ps : List Precursor) : List (Precursor × ℚ) :=
  ps.filterMap fun p =>
    if 0 < p.percentage then some (p, tbc * p.percentage / 100) else none

/-- `binder_quantities` of a run, from the input. -/
def mix_binder_quantities (inp : MixInput) : List (Precursor × ℚ) :=
  binder_quantities (total_binder_content inp.target_strength) inp.precursors

/-- `sum(binder_quantities.values())`, used on lines 234, 250, 262 and
275-277. -/
def total_binder_mass (inp : MixInput) : ℚ :=
  ((mix_binder_quantities inp).map Prod.snd).sum

/-- `total_activator = total_binder_content * act_binder_ratio`
(line 142). -/
def total_activator_mass (inp : MixInput) : ℚ :=
  total_binder_content inp.target_strength * inp.act_binder_ratio

/-- The `activator_quantities` dict: `some` for a key that is present. -/
structure ActivatorQuantities where
  ss : Option ℚ
  sh : Option ℚ
deriving Repr, DecidableEq

/-- The activator split (lines 144-157), by which activator kinds are
present. -/
def activator_quantities (total_activator ss_sh_ratio : ℚ)
    (hasSS hasSH : Bool) : ActivatorQuantities :=
  if hasSS && hasSH then
    let ss_quantity := total_activator * ss_sh_ratio / (1 + ss_sh_ratio)
    ⟨some ss_quantity, some (total_activator - ss_quantity)⟩
  else if hasSS then ⟨some total_activator, none⟩
  else if hasSH then ⟨none, some total_activator⟩
  else ⟨none, none⟩

/-- The activator split of a run, from the input. -/
def mix_activator_quantities (inp : MixInput) : ActivatorQuantities :=
  activator_quantities (total_activator_mass inp) inp.ss_sh_ratio
    inp.activators.ss.isSome inp.activators.sh.isSome

/-- `sum(activator_quantities.values())` (lines 234, 264, 275). -/
def aq_sum (aq : ActivatorQuantities) : ℚ :=
  aq.ss.getD 0 + aq.sh.getD 0

/-- `naoh_solid_concentration = molarity * naoh_mass / 1000` with
`naoh_mass = 40` (lines 167-168), kg/L. -/
def naoh_solid_concentration (molarity : ℚ) : ℚ :=
  molarity * 40 / 1000

/-- `naoh_solution_density = 1000 + naoh_solid_concentration * 1000`
(line 169), kg/m³. -/
def naoh_solution_density (molarity : ℚ) : ℚ :=
  1000 + naoh_solid_concentration molarity * 1000

/-- `naoh_solid_fraction = naoh_solid_concentration /
(naoh_solution_density / 1000)` (line 170, recomputed identically on
lines 244-246). -/
def naoh_solid_fraction (molarity : ℚ) : ℚ :=
  naoh_solid_concentration molarity / (naoh_solution_density molarity / 1000)

/-- Water contributed by the sodium-hydroxide solution (line 172):
`quantity * (1 - naoh_solid_fraction)`. -/
def water_from_sh (sh_quantity molarity : ℚ) : ℚ :=
  sh_quantity * (1 - naoh_solid_fraction molarity)

/-- The second, distinct sodium-hydroxide solution-density approximation,
`sh_density = 1000 + 0.04 * molarity * 40` (line 195), kg/m³. -/
def sh_density (molarity : ℚ) : ℚ :=
  1000 + 0.04 * molarity * 40

/-- The sodium-hydroxide volume term of the volume balance (line 196):
`quantity / sh_density`. -/
def sh_volume (sh_quantity molarity : ℚ) : ℚ :=
  sh_quantity / sh_density molarity

/-- `water_in_activator` (lines 160-172): the sodium-silicate water
`quantity * h2o / 100` plus the sodium-hydroxide water. -/
def water_in_activator (inp : MixInput) : ℚ :=
  (match (mix_activator_quantities inp).ss, inp.activators.ss with
   | some q, some ss => q * ss.h2o / 100
   | _, _ => 0) +
  (match (mix_activator_quantities inp).sh, inp.activators.sh with
   | some q, some sh => water_from_sh q sh.molarity
   | _, _ => 0)

/-- `total_water = water_in_activator + extra_water` (line 175). -/
def total_water (inp : MixInput) : ℚ :=
  water_in_activator inp + inp.extra_water

/-- `air_content = 0.02` (line 178): fixed, not an input. -/
def air_content : ℚ := 0.02

/-- `binder_volume` (line 185): `sum(qty / (sg * 1000))` over the binder
quantities. -/
def binder_volume (inp : MixInput) : ℚ :=
  ((mix_binder_quantities inp).map fun pq => pq.2 / (pq.1.sg * 1000)).sum

/-- `activator_volume` (lines 188-196): sodium silicate by its specific
gravity, sodium hydroxide by the approximate density `sh_density`. -/
def activator_volume (inp : MixInput) : ℚ :=
  (match (mix_activator_quantities inp).ss, inp.activators.ss with
   | some q, some ss => q / (ss.sg * 1000)
   | _, _ => 0) +
  (match (mix_activator_quantities inp).sh, inp.activators.sh with
   | some q, some sh => sh_volume q sh.molarity
   | _, _ => 0)

/-- `agg_volume = total_volume - binder_volume - activator_volume -
extra_water_volume - air_content` (lines 199-202), with
`total_volume = 1.0`. -/
def agg_volume (inp : MixInput) : ℚ :=
  1 - binder_volume inp - activator_volume inp - inp.extra_water / 1000 - air_content

/-- The fine-aggregate fraction of total aggregate volume (lines 205-217):
a base from the coarse-aggregate size, adjusted by the fineness
modulus. -/
def fa_fraction (inp : MixInput) : ℚ :=
  (if inp.coarse_agg.size ≤ 10 then 0.45
   else if inp.coarse_agg.size ≤ 20 then 0.40
   else 0.35) +
  (2.6 - inp.fine_agg.fm) * 0.05

/-- `fa_quantity_wet` (lines 220-230): fine-aggregate volume to dry mass
to moisture-adjusted mass. -/
def fa_quantity_wet (inp : MixInput) : ℚ :=
  agg_volume inp * fa_fraction inp * inp.fine_agg.sg * 1000 *
    (1 + inp.fine_agg.moisture / 100)

/-- `ca_quantity_wet` (lines 221-231): the remaining aggregate volume to
dry mass to moisture-adjusted mass. -/
def ca_quantity_wet (inp : MixInput) : ℚ :=
  (agg_volume inp - agg_volume inp * fa_fraction inp) * inp.coarse_agg.sg * 1000 *
    (1 + inp.coarse_agg.moisture / 100)

/-- `concrete_density` (line 234). -/
def concrete_density (inp : MixInput) : ℚ :=
  total_binder_mass inp + aq_sum (mix_activator_quantities inp) +
    inp.extra_water + fa_quantity_wet inp + ca_quantity_wet inp

/-- `activator_solids` (lines 237-247): sodium silicate contributes
`quantity * (sio2 + na2o) / 100`, sodium hydroxide `quantity *
naoh_solid_fraction`. -/
def activator_solids (inp : MixInput) : ℚ :=
  (match (mix_activator_quantities inp).ss, inp.activators.ss with
   | some q, some ss => q * (ss.sio2 + ss.na2o) / 100
   | _, _ => 0) +
  (match (mix_activator_quantities inp).sh, inp.activators.sh with
   | some q, some sh => q * naoh_solid_fraction sh.molarity
   | _, _ => 0)

/-- `total_solids` (line 250). -/
def total_solids (inp : MixInput) : ℚ :=
  total_binder_mass inp + activator_solids inp

/-- The guarded ratio of lines 253-256. -/
def water_geopolymer_solids_ratio (inp : MixInput) : ℚ :=
  if 0 < total_solids inp then total_water inp / total_solids inp else 0

/-- The `mix_ratio` sub-dict of the results (lines 273-278). -/
structure MixRatio where
  binder : ℚ
  activator : ℚ
  fine_agg : ℚ
  coarse_agg : ℚ
deriving Repr, DecidableEq

/-- Lines 273-278: ratios relative to total binder mass, `0` when the
total binder mass is not positive. -/
def mix_ratio (inp : MixInput) : MixRatio :=
  ⟨1.0,
   if 0 < total_binder_mass inp then
     aq_sum (mix_activator_quantities inp) / total_binder_mass inp else 0,
   if 0 < total_binder_mass inp then fa_quantity_wet inp / total_binder_mass inp else 0,
   if 0 < total_binder_mass inp then ca_quantity_wet inp / total_binder_mass inp else 0⟩

/-- The results dict of a successful run (lines 259-279). -/
structure MixResult where
  target_strength : ℚ
  binder_quantities : List (String × ℚ)
  total_binder : ℚ
  activator_quantities : ActivatorQuantities
  total_activator : ℚ
  activator_solids : ℚ
  fine_aggregate : ℚ
  coarse_aggregate : ℚ
  water_content : ℚ
  extra_water : ℚ
  water_geopolymer_solids_ratio : ℚ
  concrete_density : ℚ
  warnings : List String
  mix_ratio : MixRatio
deriving Repr, DecidableEq

/-- The whole successful computation (lines 110-279 after validation has
passed). -/
def computeMix (inp : MixInput) : MixResult :=
  ⟨inp.target_strength,
   (mix_binder_quantities inp).map fun pq => (pq.1.name, pq.2),
   total_binder_mass inp,
   mix_activator_quantities inp,
   aq_sum (mix_activator_quantities inp),
   activator_solids inp,
   fa_quantity_wet inp,
   ca_quantity_wet inp,
   total_water inp,
   inp.extra_water,
   water_geopolymer_solids_ratio inp,
   concrete_density inp,
   mix_warnings inp,
   mix_ratio inp⟩

/-- `geopolymer_mix_design`: the validation prefix either short-circuits
with the error dict, or the full results dict is produced. -/
def geopolymer_mix_design (inp : MixInput) : Except MixError MixResult :=
  match validate inp with
  | some e => .error e
  | none => .ok (computeMix inp)

/-- Zero denominators among the divisions the source reaches after both
validation checks have passed: `total_activator * ss_sh_ratio /
(1 + ss_sh_ratio)` (line 147, both activators present), `qty / (sg *
1000)` per positive-percentage precursor (line 185), the sodium-silicate
volume `quantity / (sg * 1000)` (line 190), and for sodium hydroxide the
solid fraction's denominator `naoh_solution_density / 1000` (line 170)
and the volume's denominator `sh_density` (line 196). -/
def post_validation_div_zero (inp : MixInput) : Bool :=
  (inp.activators.ss.isSome && inp.activators.sh.isSome &&
    decide (1 + inp.ss_sh_ratio = 0)) ||
  (inp.precursors.any fun p => decide (0 < p.percentage) && decide (p.sg * 1000 = 0)) ||
  (match inp.activators.ss with
   | some ss => decide (ss.sg * 1000 = 0)
   | none => false) ||
  (match inp.activators.sh with
   | some sh =>
       decide (naoh_solution_density sh.molarity / 1000 = 0) ||
         decide (sh_density sh.molarity = 0)
   | none => false)

/-- Whether the Python source raises `ZeroDivisionError` on this input: a
division with zero denominator is reached.  The validation checks return
before any such division; the first division reached after them is
`ss['sio2'] / ss['na2o']` (line 111), computed whenever sodium silicate
is present and its composition check passed, with no guard on `na2o`. -/
def raises_div_by_zero (inp : MixInput) : Bool :=
  if 0.1 < |precursor_sum inp.precursors - 100| then false
  else
    match inp.activators.ss with
    | some ss =>
        if 0.1 < |ss.sio2 + ss.na2o + ss.h2o - 100| then false
        else decide (ss.na2o = 0) || post_validation_div_zero inp
    | none => post_validation_div_zero inp

/-! ## Example inputs -/

/-- The end-to-end scenario input: strength 40, Fly Ash 70% (sg 2.2),
GGBFS 30% (sg 2.9), sodium silicate 30/15/55 (sg 1.5), sodium hydroxide
10 M, ss/sh ratio 2.0, activator/binder ratio 0.45, no extra water. -/
def standard_input : MixInput :=
  ⟨40, [⟨"Fly Ash", 70, 2.2⟩, ⟨"GGBFS", 30, 2.9⟩],
   ⟨some ⟨30, 15, 55, 1.5⟩, some ⟨10⟩⟩, ⟨2.6, 2.8, 2.0⟩, ⟨2.7, 20, 1.0⟩,
   2.0, 0.45, 0⟩

/-! ## Basic facts about the engine -/

/-- A run succeeds exactly when validation passes, and then the result is
the computed mix. -/
theorem mix_design_ok_iff (inp : MixInput) (r : MixResult) :
    geopolymer_mix_design inp = .ok r ↔ validate inp = none ∧ r = computeMix inp := by
  unfold geopolymer_mix_design
  cases h : validate inp <;> simp [eq_comm]

/-- A run fails exactly when validation fails, with the validation
error. -/
theorem mix_design_error_iff (inp : MixInput) (e : MixError) :
    geopolymer_mix_design inp = .error e ↔ validate inp = some e := by
  unfold geopolymer_mix_design
  cases h : validate inp <;> simp

/-! ## Claims -/

/-- C2: the total binder content is the banded step function of target
strength, bands inclusive of the upper bound: `≤ 30 → 350`, `≤ 40 → 400`,
`≤ 50 → 450`, `> 50 → 500` kg/m³; in particular strength 30 gives 350,
31 gives 400, 40 gives 400, 41 gives 450, 50 gives 450 and 51 gives
500. -/
theorem C2_binder_content_step (s : ℚ) :
    (s ≤ 30 → total_binder_content s = 350) ∧
    (30 < s → s ≤ 40 → total_binder_content s = 400) ∧
    (40 < s → s ≤ 50 → total_binder_content s = 450) ∧
    (50 < s → total_binder_content s = 500) ∧
    total_binder_content 30 = 350 ∧ total_binder_content 31 = 400 ∧
    total_binder_content 40 = 400 ∧ total_binder_content 41 = 450 ∧
    total_binder_content 50 = 450 ∧ total_binder_content 51 = 500 := by
  unfold total_binder_content
  refine ⟨?_, ?_, ?_, ?_, by norm_num, by norm_num, by norm_num, by norm_num,
    by norm_num, by norm_num⟩
  · intro h; rw [if_pos h]
  · intro h1 h2; rw [if_neg (by linarith), if_pos h2]
  · intro h1 h2; rw [if_neg (by linarith), if_neg (by linarith), if_pos h2]
  · intro h; rw [if_neg (by linarith), if_neg (by linarith), if_neg (by linarith)]

/-- Witness for C2 at strength 41: the band `40 < s ≤ 50` applies and
yields 450 kg/m³. -/
theorem C2_binder_content_step_witness :
    (40:ℚ) < 41 ∧ (41:ℚ) ≤ 50 ∧ total_binder_content 41 = 450 :=
  ⟨by norm_num, by norm_num,
   (C2_binder_content_step 41).2.2.1 (by norm_num) (by norm_num)⟩

/-- C3: with both activators present the total activator mass is split as
`siMass = total * r / (1 + r)` and `shMass = total - siMass`; with one
activator it receives the whole mass; with neither both are absent.  On
the standard scenario (binder 400, activator/binder 0.45, ss/sh ratio
2.0) the total activator mass is 180, split 120 / 60. -/
theorem C3_activator_split (ta r : ℚ) :
    activator_quantities ta r true true =
      ⟨some (ta * r / (1 + r)), some (ta - ta * r / (1 + r))⟩ ∧
    activator_quantities ta r true false = ⟨some ta, none⟩ ∧
    activator_quantities ta r false true = ⟨none, some ta⟩ ∧
    activator_quantities ta r false false = ⟨none, none⟩ ∧
    total_activator_mass standard_input = 180 ∧
    mix_activator_quantities standard_input = ⟨some 120, some 60⟩ := by
  refine ⟨rfl, rfl, rfl, rfl, ?_, ?_⟩
  · norm_num [total_activator_mass, total_binder_content, standard_input]
  · norm_num [mix_activator_quantities, activator_quantities, total_activator_mass,
      total_binder_content, standard_input]

/-- C4: the water contributed by sodium hydroxide uses the solute-mass
density model `ρ₁ = 1000 + (molarity·40/1000)·1000`, while the
volume balance divides by the distinct approximation
`ρ₂ = 1000 + 0.04·molarity·40`; the two are not reconciled: they differ
for every nonzero molarity. -/
theorem C4_two_naoh_densities (q m : ℚ) :
    water_from_sh q m =
      q * (1 - (m * 40 / 1000) / ((1000 + m * 40 / 1000 * 1000) / 1000)) ∧
    sh_volume q m = q / (1000 + 0.04 * m * 40) ∧
    naoh_solution_density m = 1000 + 40 * m ∧
    sh_density m = 1000 + 1.6 * m ∧
    (m ≠ 0 → naoh_solution_density m ≠ sh_density m) := by
  have h1 : naoh_solution_density m = 1000 + 40 * m := by
    unfold naoh_solution_density naoh_solid_concentration; ring
  have h2 : sh_density m = 1000 + 1.6 * m := by
    unfold sh_density; ring
  refine ⟨rfl, rfl, h1, h2, ?_⟩
  intro hm hc
  rw [h1, h2] at hc
  have h3 : (192/5 : ℚ) * m = 0 := by norm_num at hc ⊢; linarith
  rcases mul_eq_zero.mp h3 with h | h
  · norm_num at h
  · exact hm h

/-- Witness for C4 at molarity 10: the two density approximations give
1400 and 1016 kg/m³ respectively, which differ. -/
theorem C4_two_naoh_densities_witness :
    (10:ℚ) ≠ 0 ∧ naoh_solution_density 10 ≠ sh_density 10 :=
  ⟨by norm_num, (C4_two_naoh_densities 0 10).2.2.2.2 (by norm_num)⟩

/-- An input that passes both validation checks yet has `na2o = 0` in the
sodium-silicate composition (55 + 0 + 45 = 100). -/
def c1_input : MixInput :=
  ⟨40, [⟨"Fly Ash", 100, 2.2⟩], ⟨some ⟨55, 0, 45, 1.5⟩, none⟩,
   ⟨2.6, 2.8, 2.0⟩, ⟨2.7, 20, 1.0⟩, 2.0, 0.45, 0⟩

/-- C1 (code bug): the engine is not a total function.  `c1_input` passes
both validation checks, so no error dict is returned, yet the source then
evaluates `ss['sio2'] / ss['na2o']` (line 111) with `na2o = 0` and raises
`ZeroDivisionError`: the activator modulus is derived whenever sodium
silicate is present, with no guard on `na2o > 0`. -/
theorem C1_division_by_zero_on_valid_input :
    validate c1_input = none ∧ raises_div_by_zero c1_input = true := by
  constructor
  · norm_num [validate, precursor_sum, c1_input]
  · norm_num [raises_div_by_zero, precursor_sum, c1_input]

/-- An input whose precursor percentages sum to 50. -/
def c6_input : MixInput :=
  ⟨40, [⟨"Fly Ash", 50, 2.2⟩], ⟨none, none⟩,
   ⟨2.6, 2.8, 2.0⟩, ⟨2.7, 20, 1.0⟩, 2.0, 0.45, 0⟩

/-- C6: a precursor-percentage sum off 100 by more than 0.1 yields the
validation error carrying the computed sum — whose message contains that
exact sum — and no result dict; a sum within 100 ± 0.1 never yields
that error. -/
theorem C6_precursor_sum_validation (inp : MixInput) :
    (0.1 < |precursor_sum inp.precursors - 100| →
      geopolymer_mix_design inp =
        .error (.precursorSum (precursor_sum inp.precursors)) ∧
      (∀ r : MixResult, geopolymer_mix_design inp ≠ .ok r) ∧
      ∃ pre post, (MixError.precursorSum (precursor_sum inp.precursors)).message =
        pre ++ toString (precursor_sum inp.precursors) ++ post) ∧
    (|precursor_sum inp.precursors - 100| ≤ 0.1 →
      ∀ s, geopolymer_mix_design inp ≠ .error (.precursorSum s)) := by
  constructor
  · intro h
    have he : geopolymer_mix_design inp =
        .error (.precursorSum (precursor_sum inp.precursors)) := by
      rw [mix_design_error_iff]
      unfold validate
      rw [if_pos h]
    refine ⟨he, fun r hr => ?_, "Precursor percentages must sum to 100%, current sum is ",
      "%", rfl⟩
    rw [he] at hr
    cases hr
  · intro h s hcontra
    rw [mix_design_error_iff] at hcontra
    unfold validate at hcontra
    rw [if_neg (not_lt.mpr h)] at hcontra
    cases hss : inp.activators.ss with
    | none => rw [hss] at hcontra; cases hcontra
    | some ss =>
        rw [hss] at hcontra
        have hcontra2 : (if 0.1 < |ss.sio2 + ss.na2o + ss.h2o - 100| then
            some (MixError.silicateSum (ss.sio2 + ss.na2o + ss.h2o)) else none) =
            some (MixError.precursorSum s) := hcontra
        split at hcontra2 <;> simp at hcontra2

/-- Witness for C6 on `c6_input` (sum 50): the run returns exactly the
precursor-sum error. -/
theorem C6_precursor_sum_validation_witness :
    geopolymer_mix_design c6_input =
      .error (.precursorSum (precursor_sum c6_input.precursors)) :=
  ((C6_precursor_sum_validation c6_input).1
    (by norm_num [precursor_sum, c6_input])).1

/-- An input failing both validation checks: precursor sum 50, silicate
composition sum 80. -/
def c10_input : MixInput :=
  ⟨40, [⟨"Fly Ash", 50, 2.2⟩], ⟨some ⟨30, 15, 35, 1.5⟩, none⟩,
   ⟨2.6, 2.8, 2.0⟩, ⟨2.7, 20, 1.0⟩, 2.0, 0.45, 0⟩

/-- C10: when both the precursor-percentage sum and the sodium-silicate
composition sum are out of tolerance, the precursor-sum error is the one
returned (the silicate check runs only after the precursor check passes),
and an error result carries no result dict. -/
theorem C10_validation_priority (inp : MixInput) (ss : SodiumSilicate)
    (hss : inp.activators.ss = some ss)
    (h1 : 0.1 < |precursor_sum inp.precursors - 100|)
    (h2 : 0.1 < |ss.sio2 + ss.na2o + ss.h2o - 100|) :
    geopolymer_mix_design inp =
      .error (.precursorSum (precursor_sum inp.precursors)) ∧
    ∀ r : MixResult, geopolymer_mix_design inp ≠ .ok r := by
  have he : geopolymer_mix_design inp =
      .error (.precursorSum (precursor_sum inp.precursors)) := by
    rw [mix_design_error_iff]
    unfold validate
    rw [if_pos h1]
  refine ⟨he, fun r hr => ?_⟩
  rw [he] at hr
  cases hr

/-- Witness for C10 on `c10_input`: both sums are out of tolerance and
the precursor-sum error is returned. -/
theorem C10_validation_priority_witness :
    geopolymer_mix_design c10_input =
      .error (.precursorSum (precursor_sum c10_input.precursors)) :=
  (C10_validation_priority c10_input ⟨30, 15, 35, 1.5⟩ rfl
    (by norm_num [precursor_sum, c10_input]) (by norm_num)).1

/-- The standard scenario pushed infeasible: 2000 kg/m³ of extra water,
whose volume alone exceeds the unit cubic meter. -/
def c5_input : MixInput :=
  ⟨40, [⟨"Fly Ash", 70, 2.2⟩, ⟨"GGBFS", 30, 2.9⟩],
   ⟨some ⟨30, 15, 55, 1.5⟩, some ⟨10⟩⟩, ⟨2.6, 2.8, 2.0⟩, ⟨2.7, 20, 1.0⟩,
   2.0, 0.45, 2000⟩

/-- C5: on every successful run the aggregate volume is exactly
`1.0 - binderVolume - activatorVolume - extraWater/1000 - 0.02` (air
content a fixed 2% of the unit volume), and that value — clamped or
flagged nowhere — is propagated unchanged into the fine and coarse
aggregate masses. -/
theorem C5_aggregate_volume (inp : MixInput) (r : MixResult)
    (h : geopolymer_mix_design inp = .ok r) :
    agg_volume inp =
      1 - binder_volume inp - activator_volume inp - inp.extra_water / 1000 - 0.02 ∧
    r.fine_aggregate =
      agg_volume inp * fa_fraction inp * inp.fine_agg.sg * 1000 *
        (1 + inp.fine_agg.moisture / 100) ∧
    r.coarse_aggregate =
      (agg_volume inp - agg_volume inp * fa_fraction inp) * inp.coarse_agg.sg * 1000 *
        (1 + inp.coarse_agg.moisture / 100) := by
  obtain ⟨-, rfl⟩ := (mix_design_ok_iff inp r).mp h
  exact ⟨rfl, rfl, rfl⟩

/-- Witness for C5 on `c5_input`: the run succeeds, the aggregate volume
is negative, and the negative value still reaches the fine-aggregate
mass through the documented formula. -/
theorem C5_aggregate_volume_witness :
    geopolymer_mix_design c5_input = .ok (computeMix c5_input) ∧
    agg_volume c5_input < 0 ∧
    (computeMix c5_input).fine_aggregate =
      agg_volume c5_input * fa_fraction c5_input * c5_input.fine_agg.sg * 1000 *
        (1 + c5_input.fine_agg.moisture / 100) := by
  have hok : geopolymer_mix_design c5_input = .ok (computeMix c5_input) :=
    (mix_design_ok_iff _ _).mpr ⟨by norm_num [validate, precursor_sum, c5_input], rfl⟩
  refine ⟨hok, ?_, (C5_aggregate_volume c5_input _ hok).2.1⟩
  norm_num [agg_volume, binder_volume, activator_volume, mix_binder_quantities,
    binder_quantities, total_binder_content, mix_activator_quantities,
    activator_quantities, total_activator_mass, sh_volume, sh_density,
    air_content, c5_input, List.filterMap_cons, List.filterMap_nil,
    List.map_cons, List.map_nil, List.sum_cons, List.sum_nil]

/-- A valid input whose total geopolymer solids are exactly zero: one
precursor at 100% and a (chemically absurd but numerically valid)
sodium-silicate composition `-30/20/110` at activator/binder ratio 10,
so the negative activator solids cancel the binder mass. -/
def c7_input : MixInput :=
  ⟨30, [⟨"Fly Ash", 100, 2.2⟩], ⟨some ⟨-30, 20, 110, 1.5⟩, none⟩,
   ⟨2.6, 2.8, 2.0⟩, ⟨2.7, 20, 1.0⟩, 2.0, 10, 0⟩

/-- C7: on every successful run the water-to-geopolymer-solids ratio is
`totalWater / totalSolids` when the total solids are positive and `0`
otherwise — the division is guarded, a non-positive denominator yields
`0` rather than a fault. -/
theorem C7_water_solids_guard (inp : MixInput) (r : MixResult)
    (h : geopolymer_mix_design inp = .ok r) :
    (0 < total_solids inp →
      r.water_geopolymer_solids_ratio = total_water inp / total_solids inp) ∧
    (total_solids inp ≤ 0 → r.water_geopolymer_solids_ratio = 0) := by
  obtain ⟨-, rfl⟩ := (mix_design_ok_iff inp r).mp h
  constructor
  · intro hpos
    show water_geopolymer_solids_ratio inp = _
    unfold water_geopolymer_solids_ratio
    rw [if_pos hpos]
  · intro hle
    show water_geopolymer_solids_ratio inp = _
    unfold water_geopolymer_solids_ratio
    rw [if_neg (not_lt.mpr hle)]

/-- Witness for C7 on `c7_input`: the run succeeds with total solids
equal to 0 and the reported ratio is 0, not a fault. -/
theorem C7_water_solids_guard_witness :
    geopolymer_mix_design c7_input = .ok (computeMix c7_input) ∧
    total_solids c7_input ≤ 0 ∧
    (computeMix c7_input).water_geopolymer_solids_ratio = 0 := by
  have hok : geopolymer_mix_design c7_input = .ok (computeMix c7_input) :=
    (mix_design_ok_iff _ _).mpr ⟨by norm_num [validate, precursor_sum, c7_input], rfl⟩
  have hts : total_solids c7_input ≤ 0 := by
    norm_num [total_solids, total_binder_mass, activator_solids,
      mix_binder_quantities, binder_quantities, total_binder_content,
      mix_activator_quantities, activator_quantities, total_activator_mass,
      naoh_solid_fraction, naoh_solution_density, naoh_solid_concentration,
      c7_input, List.filterMap_cons, List.filterMap_nil,
      List.map_cons, List.map_nil, List.sum_cons, List.sum_nil]
  exact ⟨hok, hts, (C7_water_solids_guard c7_input _ hok).2 hts⟩

/-- The standard scenario with sodium-silicate composition 36/10/54:
modulus 3.6 and every composition percentage out of range. -/
def c8_input : MixInput :=
  ⟨40, [⟨"Fly Ash", 70, 2.2⟩, ⟨"GGBFS", 30, 2.9⟩],
   ⟨some ⟨36, 10, 54, 1.5⟩, some ⟨10⟩⟩, ⟨2.6, 2.8, 2.0⟩, ⟨2.7, 20, 1.0⟩,
   2.0, 0.45, 0⟩

/-- C8: on a successful run with sodium silicate present (composition
valid, `na2o ≠ 0` so the Python run does not fault), the warnings are
exactly the in-order concatenation of the four advisory range checks —
modulus outside [0.6, 2.0], sio2 outside [30, 35], na2o outside [12, 18],
h2o outside [40, 50] — each present if and only if its range is violated
and naming the offending value, while the full result is returned
alongside them. -/
theorem C8_range_warnings (inp : MixInput) (ss : SodiumSilicate) (r : MixResult)
    (hss : inp.activators.ss = some ss) (hna : ss.na2o ≠ 0)
    (h : geopolymer_mix_design inp = .ok r) :
    r.warnings =
      (if ss.sio2 / ss.na2o < 0.6 ∨ 2.0 < ss.sio2 / ss.na2o then
          [modulus_warning (ss.sio2 / ss.na2o)] else []) ++
      (if ss.sio2 < 30 ∨ 35 < ss.sio2 then [sio2_warning ss.sio2] else []) ++
      (if ss.na2o < 12 ∨ 18 < ss.na2o then [na2o_warning ss.na2o] else []) ++
      (if ss.h2o < 40 ∨ 50 < ss.h2o then [h2o_warning ss.h2o] else []) := by
  obtain ⟨-, rfl⟩ := (mix_design_ok_iff inp r).mp h
  show mix_warnings inp = _
  unfold mix_warnings
  rw [hss]
  rfl

/-- Witness for C8 on `c8_input`: the run succeeds and returns all four
warnings in evaluation order, the modulus warning (at 36/10 = 3.6)
first. -/
theorem C8_range_warnings_witness :
    geopolymer_mix_design c8_input = .ok (computeMix c8_input) ∧
    (computeMix c8_input).warnings =
      [modulus_warning (36 / 10), sio2_warning 36, na2o_warning 10,
       h2o_warning 54] := by
  have hok : geopolymer_mix_design c8_input = .ok (computeMix c8_input) :=
    (mix_design_ok_iff _ _).mpr ⟨by norm_num [validate, precursor_sum, c8_input], rfl⟩
  refine ⟨hok, ?_⟩
  rw [C8_range_warnings c8_input ⟨36, 10, 54, 1.5⟩ (computeMix c8_input) rfl
    (by norm_num) hok]
  norm_num

/-- A precursor set with a negative percentage that still sums to 100:
150% of one material and -50% of another. -/
def c9_input : MixInput :=
  ⟨40, [⟨"Fly Ash", 150, 2.2⟩, ⟨"GGBFS", -50, 2.9⟩], ⟨none, some ⟨10⟩⟩,
   ⟨2.6, 2.8, 2.0⟩, ⟨2.7, 20, 1.0⟩, 2.0, 0.45, 0⟩

/-- C9: the per-precursor binder quantities keep exactly the precursors
with strictly positive percentage, so the total binder mass is the
banded content times the sum of the positive percentages only, divided
by 100; `c9_input` (percentages 150 and -50, sum 100) passes validation
yet totals 600 kg/m³ of binder against a banded content of 400. -/
theorem C9_positive_percentage_binder (tbc : ℚ) (ps : List Precursor) (inp : MixInput) :
    binder_quantities tbc ps =
      (ps.filter fun p => 0 < p.percentage).map
        (fun p => (p, tbc * p.percentage / 100)) ∧
    ((binder_quantities tbc ps).map Prod.snd).sum =
      tbc * ((ps.filter fun p => 0 < p.percentage).map Precursor.percentage).sum / 100 ∧
    (computeMix inp).total_binder =
      ((binder_quantities (total_binder_content inp.target_strength)
        inp.precursors).map Prod.snd).sum ∧
    validate c9_input = none ∧
    geopolymer_mix_design c9_input = .ok (computeMix c9_input) ∧
    (computeMix c9_input).total_binder = 600 ∧
    total_binder_content c9_input.target_strength = 400 := by
  have hfilter : ∀ l : List Precursor, binder_quantities tbc l =
      (l.filter fun p => 0 < p.percentage).map
        (fun p => (p, tbc * p.percentage / 100)) := by
    intro l
    induction l with
    | nil => rfl
    | cons p t ih =>
        by_cases hp : 0 < p.percentage
        · simp only [binder_quantities, List.filterMap_cons, if_pos hp,
            List.filter_cons, decide_eq_true_eq, hp, if_true, List.map_cons] at ih ⊢
          exact congrArg _ ih
        · simp only [binder_quantities, List.filterMap_cons, if_neg hp,
            List.filter_cons, decide_eq_true_eq, hp, if_false] at ih ⊢
          exact ih
  have hsum : ∀ l : List Precursor,
      ((l.map fun p => tbc * p.percentage / 100)).sum =
        tbc * (l.map Precursor.percentage).sum / 100 := by
    intro l
    induction l with
    | nil => simp
    | cons a t ih => simp only [List.map_cons, List.sum_cons, ih]; ring
  have hvalid : validate c9_input = none := by
    norm_num [validate, precursor_sum, c9_input]
  refine ⟨hfilter ps, ?_, rfl, hvalid, (mix_design_ok_iff _ _).mpr ⟨hvalid, rfl⟩, ?_, ?_⟩
  · rw [hfilter ps, List.map_map]
    exact hsum _
  · show total_binder_mass c9_input = 600
    norm_num [total_binder_mass, mix_binder_quantities, binder_quantities,
      total_binder_content, c9_input, List.filterMap_cons, List.filterMap_nil,
      List.map_cons, List.map_nil, List.sum_cons, List.sum_nil]
  · norm_num [total_binder_content, c9_input]
